import Mathlib

/-!
Verification development for the TechNova event-registration portal
(src/models.py, src/routes.py, src/run_local.py, src/app.py).

The relational store is embedded as lists of rows; datetimes are embedded as
integers (only ordering comparisons occur in the source); autoincrement
primary keys are carried as explicit counters.  Each request handler becomes a
pure function from the store (and the parsed request data) to a result code
paired with the possibly-updated store; branches of the source that flash a
message and redirect without touching the database return the store unchanged.
`src/routes.py` and `src/run_local.py` contain two parallel copies of the
admin handlers that differ in their validation; they are embedded separately
in the namespaces `Routes` and `RunLocal`.  The handlers `register_event`,
`unregister_event` and `delete_event` have the same database logic in both
files and are embedded once.
-/

namespace TechNova

/-- Student row of the `students` table (src/models.py lines 5-17).  The
`created_at` column is omitted: no handler logic reads it. -/
structure Student where
  student_id : Nat
  name : String
  email : String
  roll_number : String
  department : String
  password_hash : String
deriving Repr, DecidableEq

/-- Admin row of the `admins` table (src/models.py lines 19-25). -/
structure Admin where
  admin_id : Nat
  username : String
  password_hash : String
deriving Repr, DecidableEq

/-- Event row of the `events` table (src/models.py lines 27-37).  `date` is the
event datetime as an integer timestamp; `created_at` is omitted (unread). -/
structure Event where
  event_id : Nat
  title : String
  description : String
  date : Int
  venue : String
  department : String
  max_participants : Int
deriving Repr, DecidableEq

/-- Registration row of the `registrations` table (src/models.py lines 54-63):
a join row with its own primary key and a creation timestamp. -/
structure Registration where
  reg_id : Nat
  event_id : Nat
  student_id : Nat
  timestamp : Int
deriving Repr, DecidableEq

/-- The relational store: the three row tables plus the autoincrement counters
for the two primary keys that the handlers generate. -/
structure DB where
  students : List Student
  events : List Event
  registrations : List Registration
  next_event_id : Nat
  next_reg_id : Nat
deriving Repr, DecidableEq

/-- Event.current_participants (src/models.py lines 42-44): the number of
Registration rows whose `event_id` references the event. -/
def current_participants (db : DB) (e : Event) : Nat :=
  (db.registrations.filter (fun r => r.event_id == e.event_id)).length

/-- Event.is_full (src/models.py lines 46-48):
`current_participants >= max_participants`. -/
def is_full (db : DB) (e : Event) : Bool :=
  decide (e.max_participants ≤ (current_participants db e : Int))

/-- Event.is_past (src/models.py lines 50-52): `date < datetime.utcnow()`,
with the current time passed explicitly. -/
def is_past (e : Event) (now : Int) : Bool :=
  decide (e.date < now)

/-- Event.query.get / get_or_404: look an event up by primary key. -/
def eventLookup (db : DB) (eid : Nat) : Option Event :=
  db.events.find? (fun e => e.event_id == eid)

/-- Registration.query.filter_by(event_id=..., student_id=...).first()
(src/routes.py lines 143-145, src/run_local.py lines 235-238 and 268-271). -/
def regLookup (db : DB) (eid sid : Nat) : Option Registration :=
  db.registrations.find? (fun r => r.event_id == eid && r.student_id == sid)

/-- Result codes of the student-facing registration handlers; each corresponds
to one flashed message of the source. -/
inductive RegResult where
  | ok
  | notFound
  | eventFull
  | eventExpired
  | alreadyRegistered
  | notRegistered
deriving Repr, DecidableEq

/-- register_event (src/routes.py lines 123-161, src/run_local.py lines
215-259; the two copies have identical database logic).  Checks, in source
order: event exists (get_or_404), not full, not past, not already registered;
then inserts one Registration stamped with the current time.  Every failing
branch returns before any mutation. -/
def register_event (db : DB) (now : Int) (sid eid : Nat) : RegResult × DB :=
  match eventLookup db eid with
  | none => (.notFound, db)
  | some event =>
    if is_full db event then (.eventFull, db)
    else if is_past event now then (.eventExpired, db)
    else
      match regLookup db eid sid with
      | some _ => (.alreadyRegistered, db)
      | none =>
          (.ok, { db with
            registrations :=
              db.registrations ++ [⟨db.next_reg_id, eid, sid, now⟩],
            next_reg_id := db.next_reg_id + 1 })

/-- unregister_event (src/run_local.py lines 261-288; src/routes.py has no
unregister route).  Looks the (event, student) registration up with
filter_by(...).first(); if absent, flashes and redirects without mutation;
otherwise deletes that row. -/
def unregister_event (db : DB) (sid eid : Nat) : RegResult × DB :=
  match regLookup db eid sid with
  | none => (.notRegistered, db)
  | some reg =>
      (.ok, { db with registrations := db.registrations.erase reg })

/-- Result codes of the admin event handlers; each corresponds to one flashed
message (or the 404 abort) of the source. -/
inductive AdminResult where
  | ok
  | notFound
  | missingFields
  | invalidInput
  | capacityBelowOne
  | pastDate
  | capacityBelowCount
deriving Repr, DecidableEq

/-- Parsed add/edit-event form.  The six `request.form.get` text fields are
strings, with "" standing for both a missing key and an empty submission (the
source treats the two identically via `not all([...])`).  `date_parsed` and
`maxp_parsed` carry the outcome of the library parses of `date_str` and
`maxp_str` (`datetime.fromisoformat` / `datetime.strptime` and `int`), with
`none` standing for a raised ValueError. -/
structure EventForm where
  title : String
  description : String
  date_str : String
  venue : String
  department : String
  maxp_str : String
  date_parsed : Option Int
  maxp_parsed : Option Int
deriving Repr, DecidableEq

/-- The `not all([title, description, date_str, venue, department,
max_participants])` emptiness test shared by all four add/edit handlers. -/
def formIncomplete (f : EventForm) : Bool :=
  f.title == "" || f.description == "" || f.date_str == "" ||
  f.venue == "" || f.department == "" || f.maxp_str == ""

/-- The six column assignments shared by both edit_event copies
(src/routes.py lines 281-286, src/run_local.py lines 465-470). -/
def overwriteEvent (f : EventForm) (d m : Int) (e : Event) : Event :=
  { e with
    title := f.title
    description := f.description
    date := d
    venue := f.venue
    department := f.department
    max_participants := m }

namespace Routes

/-- add_event (src/routes.py lines 212-254): after the emptiness check it
parses the date and the participant count and inserts the event; a ValueError
from either parse is flashed without mutation.  This copy has no positivity
check on `max_participants` and no future-date check. -/
def add_event (db : DB) (f : EventForm) : AdminResult × DB :=
  if formIncomplete f then (.missingFields, db)
  else
    match f.date_parsed, f.maxp_parsed with
    | some d, some m =>
        (.ok, { db with
          events := db.events ++
            [⟨db.next_event_id, f.title, f.description, d, f.venue,
              f.department, m⟩],
          next_event_id := db.next_event_id + 1 })
    | _, _ => (.invalidInput, db)

/-- edit_event (src/routes.py lines 256-298): get_or_404 the event, check
emptiness, parse, then overwrite all six columns of the fetched row and
commit.  This copy validates neither positivity of `max_participants` nor
that the new capacity covers the existing registrations. -/
def edit_event (db : DB) (eid : Nat) (f : EventForm) : AdminResult × DB :=
  match eventLookup db eid with
  | none => (.notFound, db)
  | some _ =>
    if formIncomplete f then (.missingFields, db)
    else
      match f.date_parsed, f.maxp_parsed with
      | some d, some m =>
          (.ok, { db with
            events := db.events.map (fun e =>
              if e.event_id == eid then overwriteEvent f d m e else e) })
      | _, _ => (.invalidInput, db)

end Routes

namespace RunLocal

/-- add_event (src/run_local.py lines 369-424): like the Routes copy but,
after the parses succeed, rejects `max_participants < 1` and then a date not
in the future, each before any mutation. -/
def add_event (db : DB) (now : Int) (f : EventForm) : AdminResult × DB :=
  if formIncomplete f then (.missingFields, db)
  else
    match f.date_parsed, f.maxp_parsed with
    | some d, some m =>
        if m < 1 then (.capacityBelowOne, db)
        else if d ≤ now then (.pastDate, db)
        else
          (.ok, { db with
            events := db.events ++
              [⟨db.next_event_id, f.title, f.description, d, f.venue,
                f.department, m⟩],
            next_event_id := db.next_event_id + 1 })
    | _, _ => (.invalidInput, db)

/-- edit_event (src/run_local.py lines 426-481): like the Routes copy but,
after the parses succeed, rejects `max_participants < 1` and then a new
capacity below the event's current registration count, each before any
mutation of the fetched row. -/
def edit_event (db : DB) (eid : Nat) (f : EventForm) : AdminResult × DB :=
  match eventLookup db eid with
  | none => (.notFound, db)
  | some event =>
    if formIncomplete f then (.missingFields, db)
    else
      match f.date_parsed, f.maxp_parsed with
      | some d, some m =>
          if m < 1 then (.capacityBelowOne, db)
          else if m < (current_participants db event : Int) then
            (.capacityBelowCount, db)
          else
            (.ok, { db with
              events := db.events.map (fun e =>
                if e.event_id == eid then overwriteEvent f d m e else e) })
      | _, _ => (.invalidInput, db)

end RunLocal

/-- delete_event (src/routes.py lines 300-317, src/run_local.py lines
483-501): get_or_404 the event, then `db.session.delete(event)`.  The
relationship `Event.registrations` is declared with
`cascade='all, delete-orphan'` (src/models.py line 40), so deleting the event
row also deletes every Registration row referencing it. -/
def delete_event (db : DB) (eid : Nat) : AdminResult × DB :=
  match eventLookup db eid with
  | none => (.notFound, db)
  | some _ =>
      (.ok, { db with
        events := db.events.filter (fun e => !(e.event_id == eid)),
        registrations :=
          db.registrations.filter (fun r => !(r.event_id == eid)) })

/-- Deletion of a Student row.  No route deletes students; this is the effect
dictated by the relationship declaration `Student.registrations` with
`cascade='all, delete-orphan'` (src/models.py line 17): deleting the student
row also deletes every Registration row referencing it. -/
def delete_student (db : DB) (sid : Nat) : DB :=
  { db with
    students := db.students.filter (fun s => !(s.student_id == sid)),
    registrations :=
      db.registrations.filter (fun r => !(r.student_id == sid)) }

/-- The flask session as the handlers use it: the four keys written by the
two login handlers (src/routes.py lines 97-98 and 194-195), `none` when the
key is absent. -/
structure SessionState where
  student_id : Option Nat
  student_name : Option String
  admin_id : Option Nat
  admin_username : Option String
deriving Repr, DecidableEq

/-- logout (src/routes.py lines 174-178, src/run_local.py lines 523-527):
`session.clear()` empties the whole session dictionary. -/
def logout (_s : SessionState) : SessionState :=
  ⟨none, none, none, none⟩

/-- admin_logout (src/routes.py lines 330-334, src/run_local.py lines
529-533): `session.clear()` empties the whole session dictionary. -/
def admin_logout (_s : SessionState) : SessionState :=
  ⟨none, none, none, none⟩

/-- Request to register_event: the current time and the (student, event)
pair taken from the session and the URL. -/
structure RegReq where
  now : Int
  sid : Nat
  eid : Nat
deriving Repr, DecidableEq

/-- Run one register_event request against the store, keeping the store of
the outcome (unchanged whenever the handler fails). -/
def applyRegister (db : DB) (q : RegReq) : DB :=
  (register_event db q.now q.sid q.eid).2

/-- Run a sequence of register_event requests in order. -/
def registerSeq (db : DB) (qs : List RegReq) : DB :=
  qs.foldl applyRegister db

/-- One request to any of the store-mutating handlers of the repository. -/
inductive Op where
  | register (now : Int) (sid eid : Nat)
  | unregister (sid eid : Nat)
  | deleteEvent (eid : Nat)
  | deleteStudent (sid : Nat)
  | addEventR (f : EventForm)
  | editEventR (eid : Nat) (f : EventForm)
  | addEventL (now : Int) (f : EventForm)
  | editEventL (eid : Nat) (f : EventForm)
deriving Repr, DecidableEq

/-- Run one handler request against the store, keeping the store of the
outcome (unchanged whenever the handler fails). -/
def applyOp (db : DB) (op : Op) : DB :=
  match op with
  | .register now sid eid => (register_event db now sid eid).2
  | .unregister sid eid => (unregister_event db sid eid).2
  | .deleteEvent eid => (delete_event db eid).2
  | .deleteStudent sid => delete_student db sid
  | .addEventR f => (Routes.add_event db f).2
  | .editEventR eid f => (Routes.edit_event db eid f).2
  | .addEventL now f => (RunLocal.add_event db now f).2
  | .editEventL eid f => (RunLocal.edit_event db eid f).2

/-- Run a sequence of handler requests in order. -/
def applyOps (db : DB) (ops : List Op) : DB :=
  ops.foldl applyOp db

/-- Primary-key uniqueness of the `events` table: no two event rows share an
`event_id`. -/
def eventKeysUnique (db : DB) : Prop :=
  (db.events.map Event.event_id).Nodup

/-- The capacity invariant of spec section 8: every event's
`current_participants` is at most its `max_participants`. -/
def capacityInvariant (db : DB) : Prop :=
  ∀ e ∈ db.events, (current_participants db e : Int) ≤ e.max_participants

/-- The (event, student) uniqueness invariant of the `registrations` table
(src/models.py line 63, UniqueConstraint on event_id and student_id): no two
registration rows share both foreign keys. -/
def uniquePairs (db : DB) : Prop :=
  db.registrations.Pairwise
    (fun r r' => ¬(r.event_id = r'.event_id ∧ r.student_id = r'.student_id))

instance : DecidablePred capacityInvariant := fun db =>
  inferInstanceAs (Decidable (∀ e ∈ db.events, _))

instance : DecidablePred uniquePairs := fun _d =>
  inferInstanceAs (Decidable (List.Pairwise _ _))

instance : DecidablePred eventKeysUnique := fun _ =>
  inferInstanceAs (Decidable (List.Nodup _))

/-- Key injectivity: under `eventKeysUnique`, two event rows with the same
primary key are the same row. -/
theorem event_of_key_eq {db : DB} (hk : eventKeysUnique db) :
    ∀ e ∈ db.events, ∀ e' ∈ db.events, e.event_id = e'.event_id → e = e' := by
  intro e he e' he' h
  exact List.inj_on_of_nodup_map hk he he' h

/-- Facts recovered from a successful primary-key lookup. -/
theorem eventLookup_mem {db : DB} {eid : Nat} {ev : Event}
    (h : eventLookup db eid = some ev) : ev ∈ db.events ∧ ev.event_id = eid := by
  refine ⟨List.mem_of_find?_eq_some h, ?_⟩
  simpa using List.find?_some h

/-- register_event leaves the events table unchanged in every branch. -/
theorem register_event_events (db : DB) (now : Int) (sid eid : Nat) :
    (register_event db now sid eid).2.events = db.events := by
  unfold register_event
  repeat' split
  all_goals rfl

/-- register_event either leaves the store unchanged (a failing check) or,
when the event exists, is not full, is not past and the pair is not yet
registered, appends exactly the one new row. -/
theorem register_event_shape (db : DB) (now : Int) (sid eid : Nat) :
    (register_event db now sid eid).2 = db
    ∨ ∃ ev, eventLookup db eid = some ev
        ∧ is_full db ev = false
        ∧ regLookup db eid sid = none
        ∧ (register_event db now sid eid).2 =
            { db with
              registrations :=
                db.registrations ++ [⟨db.next_reg_id, eid, sid, now⟩],
              next_reg_id := db.next_reg_id + 1 } := by
  unfold register_event
  cases hev : eventLookup db eid with
  | none => exact Or.inl rfl
  | some ev =>
    cases hful : is_full db ev with
    | true => simp [hful]
    | false =>
      cases hpast : is_past ev now with
      | true => simp [hful, hpast]
      | false =>
        cases hreg : regLookup db eid sid with
        | some r => simp [hful, hpast, hreg]
        | none =>
          refine Or.inr ⟨ev, rfl, hful, rfl, ?_⟩
          simp [hful, hpast, hreg]

/-- Appending one row changes a filtered count by one exactly when the row
passes the filter. -/
theorem length_filter_append_single {α : Type} (p : α → Bool) (l : List α)
    (x : α) :
    ((l ++ [x]).filter p).length
      = (l.filter p).length + (if p x then 1 else 0) := by
  by_cases h : p x <;> simp [h, List.filter_append]

/-- One register_event request preserves the capacity invariant. -/
theorem capacity_step (db : DB) (q : RegReq) (hk : eventKeysUnique db)
    (hc : capacityInvariant db) : capacityInvariant (applyRegister db q) := by
  unfold applyRegister
  rcases register_event_shape db q.now q.sid q.eid with h | ⟨ev, hev, hful, -, h⟩
  · rw [h]; exact hc
  · rw [h]
    intro e he
    have he' : e ∈ db.events := he
    have hcount :
        current_participants
          { db with
            registrations :=
              db.registrations ++ [⟨db.next_reg_id, q.eid, q.sid, q.now⟩],
            next_reg_id := db.next_reg_id + 1 } e
        = current_participants db e + (if q.eid = e.event_id then 1 else 0) := by
      unfold current_participants
      rw [length_filter_append_single]
      simp
    rw [hcount]
    by_cases hid : q.eid = e.event_id
    · obtain ⟨hmem, hkey⟩ := eventLookup_mem hev
      have hee : ev = e := event_of_key_eq hk ev hmem e he' (by rw [hkey, hid])
      have hlt : (current_participants db ev : Int) < ev.max_participants := by
        simp [is_full] at hful
        omega
      rw [hid] at *
      rw [← hee]
      simp only [if_pos rfl]
      push_cast
      omega
    · simp only [if_neg hid, Nat.add_zero]
      exact hc e he'

/-- C1: starting from a store whose event primary keys are unique and whose
events each hold at most `max_participants` registrations, any sequence of
register_event requests leaves every event's `current_participants` at most
its `max_participants`: register_event refuses with the eventFull result
whenever `current_participants >= max_participants` holds at evaluation time,
so no successful registration pushes a count past capacity. -/
theorem register_seq_preserves_capacity (db : DB) (qs : List RegReq)
    (hk : eventKeysUnique db) (hc : capacityInvariant db) :
    capacityInvariant (registerSeq db qs) := by
  induction qs generalizing db with
  | nil => exact hc
  | cons q qs ih =>
    have hk' : eventKeysUnique (applyRegister db q) := by
      unfold eventKeysUnique
      rw [show (applyRegister db q).events = db.events from
        register_event_events db q.now q.sid q.eid]
      exact hk
    exact ih (applyRegister db q) hk' (capacity_step db q hk hc)

/-- Store for the C1 witness: one event of capacity 1 and two students. -/
def dbC1 : DB :=
  ⟨[⟨1, "a", "a@x", "r1", "cs", "h"⟩, ⟨2, "b", "b@x", "r2", "cs", "h"⟩],
   [⟨1, "t", "d", 10, "v", "cs", 1⟩], [], 2, 1⟩

/-- C1 witness: two registration attempts against a capacity-1 event keep the
invariant (the first succeeds, the second is refused as full). -/
theorem register_seq_preserves_capacity_witness :
    capacityInvariant (registerSeq dbC1 [⟨5, 1, 1⟩, ⟨5, 2, 1⟩]) :=
  register_seq_preserves_capacity dbC1 [⟨5, 1, 1⟩, ⟨5, 2, 1⟩]
    (by decide) (by decide)

/-- unregister_event either leaves the store unchanged or deletes the found
row. -/
theorem unregister_event_shape (db : DB) (sid eid : Nat) :
    (unregister_event db sid eid).2 = db
    ∨ ∃ r, regLookup db eid sid = some r
        ∧ (unregister_event db sid eid).2 =
            { db with registrations := db.registrations.erase r } := by
  unfold unregister_event
  cases hreg : regLookup db eid sid with
  | none => exact Or.inl rfl
  | some r => exact Or.inr ⟨r, rfl, rfl⟩

/-- Both add_event copies leave the registrations table unchanged. -/
theorem add_event_registrations (db : DB) (now : Int) (f : EventForm) :
    (Routes.add_event db f).2.registrations = db.registrations
    ∧ (RunLocal.add_event db now f).2.registrations = db.registrations := by
  constructor
  · unfold Routes.add_event
    repeat' split
    all_goals rfl
  · unfold RunLocal.add_event
    repeat' split
    all_goals rfl

/-- Both edit_event copies leave the registrations table unchanged. -/
theorem edit_event_registrations (db : DB) (eid : Nat) (f : EventForm) :
    (Routes.edit_event db eid f).2.registrations = db.registrations
    ∧ (RunLocal.edit_event db eid f).2.registrations = db.registrations := by
  constructor
  · unfold Routes.edit_event
    repeat' split
    all_goals rfl
  · unfold RunLocal.edit_event
    repeat' split
    all_goals rfl

/-- delete_event leaves the registrations table unchanged or filters it. -/
theorem delete_event_registrations (db : DB) (eid : Nat) :
    (delete_event db eid).2.registrations = db.registrations
    ∨ (delete_event db eid).2.registrations
        = db.registrations.filter (fun r => !(r.event_id == eid)) := by
  unfold delete_event
  cases eventLookup db eid with
  | none => exact Or.inl rfl
  | some ev => exact Or.inr rfl

/-- A store whose registrations are a sublist of a `uniquePairs` store again
satisfies `uniquePairs`. -/
theorem uniquePairs_of_sublist {db db' : DB}
    (h : db'.registrations.Sublist db.registrations) (hu : uniquePairs db) :
    uniquePairs db' :=
  List.Pairwise.sublist h hu

/-- One handler request preserves the (event, student) uniqueness invariant:
register_event inserts only after its duplicate check finds nothing, and
every other handler only removes registration rows or leaves them alone. -/
theorem uniquePairs_step (db : DB) (op : Op) (hu : uniquePairs db) :
    uniquePairs (applyOp db op) := by
  cases op with
  | register now sid eid =>
    show uniquePairs (register_event db now sid eid).2
    rcases register_event_shape db now sid eid with h | ⟨ev, -, -, hreg, h⟩
    · rw [h]; exact hu
    · rw [h]
      unfold uniquePairs at *
      rw [List.pairwise_append]
      refine ⟨hu, List.pairwise_singleton _ _, ?_⟩
      intro a ha b hb hab
      have hb' : b = (⟨db.next_reg_id, eid, sid, now⟩ : Registration) := by
        simpa using hb
      have := List.find?_eq_none.mp hreg a ha
      simp only [Bool.and_eq_true, beq_iff_eq, not_and] at this
      rw [hb'] at hab
      exact this hab.1 hab.2
  | unregister sid eid =>
    show uniquePairs (unregister_event db sid eid).2
    rcases unregister_event_shape db sid eid with h | ⟨r, -, h⟩
    · rw [h]; exact hu
    · rw [h]
      exact uniquePairs_of_sublist (List.erase_sublist r db.registrations) hu
  | deleteEvent eid =>
    show uniquePairs (delete_event db eid).2
    rcases delete_event_registrations db eid with h | h
    · exact uniquePairs_of_sublist (h ▸ List.Sublist.refl _) hu
    · exact uniquePairs_of_sublist (h ▸ List.filter_sublist _) hu
  | deleteStudent sid =>
    exact uniquePairs_of_sublist (List.filter_sublist _) hu
  | addEventR f =>
    exact uniquePairs_of_sublist
      ((add_event_registrations db 0 f).1 ▸ List.Sublist.refl _) hu
  | addEventL now f =>
    exact uniquePairs_of_sublist
      ((add_event_registrations db now f).2 ▸ List.Sublist.refl _) hu
  | editEventR eid f =>
    exact uniquePairs_of_sublist
      ((edit_event_registrations db eid f).1 ▸ List.Sublist.refl _) hu
  | editEventL eid f =>
    exact uniquePairs_of_sublist
      ((edit_event_registrations db eid f).2 ▸ List.Sublist.refl _) hu

/-- C2: from a store satisfying the (event, student) uniqueness invariant, no
sequence of handler requests produces two Registration rows for the same
pair: register_event refuses with the alreadyRegistered result when a
matching row exists, matching the table's UniqueConstraint on
(event_id, student_id), and the remaining handlers never add rows. -/
theorem ops_preserve_unique_pairs (db : DB) (ops : List Op)
    (hu : uniquePairs db) : uniquePairs (applyOps db ops) := by
  induction ops generalizing db with
  | nil => exact hu
  | cons op ops ih => exact ih (applyOp db op) (uniquePairs_step db op hu)

/-- Store for the C2 witness: one event and one existing registration. -/
def dbC2 : DB :=
  ⟨[⟨1, "a", "a@x", "r1", "cs", "h"⟩, ⟨2, "b", "b@x", "r2", "cs", "h"⟩],
   [⟨1, "t", "d", 10, "v", "cs", 5⟩], [⟨1, 1, 1, 0⟩], 2, 2⟩

/-- C2 witness: a concrete request sequence (including a duplicate attempt by
student 1) keeps the uniqueness invariant. -/
theorem ops_preserve_unique_pairs_witness :
    uniquePairs (applyOps dbC2
      [.register 5 1 1, .register 5 2 1, .unregister 2 1, .register 6 2 1]) :=
  ops_preserve_unique_pairs dbC2
    [.register 5 1 1, .register 5 2 1, .unregister 2 1, .register 6 2 1]
    (by decide)

/-- Case analysis of register_event with each check condition stated over the
store: the source tests, in order, lookup failure, fullness, pastness and an
existing (event, student) row, and only the branch passing all four checks
mutates the store, appending the one new row stamped with the current time. -/
theorem register_event_cases (db : DB) (now : Int) (sid eid : Nat) :
    (eventLookup db eid = none →
        register_event db now sid eid = (.notFound, db))
    ∧ ∀ ev, eventLookup db eid = some ev →
        ((ev.max_participants ≤ (current_participants db ev : Int) →
            register_event db now sid eid = (.eventFull, db))
        ∧ ((current_participants db ev : Int) < ev.max_participants →
            ev.date < now →
            register_event db now sid eid = (.eventExpired, db))
        ∧ ((current_participants db ev : Int) < ev.max_participants →
            now ≤ ev.date →
            regLookup db eid sid ≠ none →
            register_event db now sid eid = (.alreadyRegistered, db))
        ∧ ((current_participants db ev : Int) < ev.max_participants →
            now ≤ ev.date →
            regLookup db eid sid = none →
            register_event db now sid eid =
              (.ok, { db with
                registrations :=
                  db.registrations ++ [⟨db.next_reg_id, eid, sid, now⟩],
                next_reg_id := db.next_reg_id + 1 }))) := by
  refine ⟨?_, ?_⟩
  · intro h
    unfold register_event
    rw [h]
  · intro ev hev
    refine ⟨?_, ?_, ?_, ?_⟩
    · intro hfull
      have hb : is_full db ev = true := by simpa [is_full] using hfull
      unfold register_event
      rw [hev]
      simp [hb]
    · intro hlt hdate
      have hb : is_full db ev = false := by simp [is_full]; omega
      have hp : is_past ev now = true := by simpa [is_past] using hdate
      unfold register_event
      rw [hev]
      simp [hb, hp]
    · intro hlt hdate hr
      have hb : is_full db ev = false := by simp [is_full]; omega
      have hp : is_past ev now = false := by simp [is_past]; omega
      obtain ⟨r, hr'⟩ := Option.ne_none_iff_exists'.mp hr
      unfold register_event
      rw [hev]
      simp [hb, hp, hr']
    · intro hlt hdate hr
      have hb : is_full db ev = false := by simp [is_full]; omega
      have hp : is_past ev now = false := by simp [is_past]; omega
      unfold register_event
      rw [hev]
      simp [hb, hp, hr]

/-- C3: register_event fails with the notFound result if the event does not
exist, with eventFull if the registration count is at least the capacity,
with eventExpired if the event's date is in the past, with alreadyRegistered
if a row for the (event, student) pair exists, and otherwise appends exactly
one new Registration stamped with the current time and reports ok; the checks
are applied in that order (each later outcome requires every earlier check to
have passed). -/
theorem register_event_check_order (db : DB) (now : Int) (sid eid : Nat) :
    (eventLookup db eid = none →
        register_event db now sid eid = (.notFound, db))
    ∧ ∀ ev, eventLookup db eid = some ev →
        ((ev.max_participants ≤ (current_participants db ev : Int) →
            register_event db now sid eid = (.eventFull, db))
        ∧ ((current_participants db ev : Int) < ev.max_participants →
            ev.date < now →
            register_event db now sid eid = (.eventExpired, db))
        ∧ ((current_participants db ev : Int) < ev.max_participants →
            now ≤ ev.date →
            regLookup db eid sid ≠ none →
            register_event db now sid eid = (.alreadyRegistered, db))
        ∧ ((current_participants db ev : Int) < ev.max_participants →
            now ≤ ev.date →
            regLookup db eid sid = none →
            register_event db now sid eid =
              (.ok, { db with
                registrations :=
                  db.registrations ++ [⟨db.next_reg_id, eid, sid, now⟩],
                next_reg_id := db.next_reg_id + 1 }))) :=
  register_event_cases db now sid eid

/-- Store for the C3 witness: one event with one existing registration. -/
def dbC3 : DB :=
  ⟨[⟨1, "a", "a@x", "r1", "cs", "h"⟩, ⟨2, "b", "b@x", "r2", "cs", "h"⟩],
   [⟨1, "t", "d", 10, "v", "cs", 5⟩], [⟨1, 1, 1, 0⟩], 2, 2⟩

/-- C3 witness: at a concrete store the success branch creates exactly the
one new row with the current timestamp. -/
theorem register_event_check_order_witness :
    register_event dbC3 5 2 1 =
      (.ok, { dbC3 with
        registrations := dbC3.registrations ++ [⟨dbC3.next_reg_id, 1, 2, 5⟩],
        next_reg_id := dbC3.next_reg_id + 1 }) :=
  (((register_event_check_order dbC3 5 2 1).2
      ⟨1, "t", "d", 10, "v", "cs", 5⟩ (by decide)).2.2.2
    (by decide) (by decide) (by decide))

/-- C6: a register_event attempt against a nonexistent event, a full event or
a past event fails with the corresponding result and returns the store
completely unchanged: no Registration is created and no Event or Student row
is modified. -/
theorem register_failure_frame (db : DB) (now : Int) (sid eid : Nat) :
    (eventLookup db eid = none →
        register_event db now sid eid = (.notFound, db))
    ∧ ∀ ev, eventLookup db eid = some ev →
        ((ev.max_participants ≤ (current_participants db ev : Int) →
            register_event db now sid eid = (.eventFull, db))
        ∧ ((current_participants db ev : Int) < ev.max_participants →
            ev.date < now →
            register_event db now sid eid = (.eventExpired, db))) := by
  obtain ⟨h1, h2⟩ := register_event_cases db now sid eid
  exact ⟨h1, fun ev hev => ⟨(h2 ev hev).1, (h2 ev hev).2.1⟩⟩

/-- Store for the C6 witness: event 1 is full (capacity 1, one registration),
event 2 is past at time 5, and event 9 does not exist. -/
def dbC6 : DB :=
  ⟨[⟨1, "a", "a@x", "r1", "cs", "h"⟩, ⟨2, "b", "b@x", "r2", "cs", "h"⟩],
   [⟨1, "t", "d", 10, "v", "cs", 1⟩, ⟨2, "u", "e", 3, "w", "ee", 5⟩],
   [⟨1, 1, 1, 0⟩], 3, 2⟩

/-- C6 witness: the three failing attempts each return the store unchanged. -/
theorem register_failure_frame_witness :
    register_event dbC6 5 2 9 = (.notFound, dbC6)
    ∧ register_event dbC6 5 2 1 = (.eventFull, dbC6)
    ∧ register_event dbC6 5 2 2 = (.eventExpired, dbC6) :=
  ⟨(register_failure_frame dbC6 5 2 9).1 (by decide),
   ((register_failure_frame dbC6 5 2 1).2
      ⟨1, "t", "d", 10, "v", "cs", 1⟩ (by decide)).1 (by decide),
   (((register_failure_frame dbC6 5 2 2).2
      ⟨2, "u", "e", 3, "w", "ee", 5⟩ (by decide)).2 (by decide) (by decide))⟩

/-- Under the pairwise uniqueness relation, once the first row matching a
(event, student) pair is erased, no row matching that pair remains. -/
theorem erase_found_no_match (eid sid : Nat) :
    ∀ l : List Registration,
      l.Pairwise (fun r r' =>
        ¬(r.event_id = r'.event_id ∧ r.student_id = r'.student_id)) →
      ∀ r, l.find? (fun x => x.event_id == eid && x.student_id == sid)
              = some r →
      ∀ x ∈ l.erase r,
        (x.event_id == eid && x.student_id == sid) = false := by
  intro l
  induction l with
  | nil => intro _ r hr; simp at hr
  | cons a t ih =>
    intro hp r hr x hx
    rw [List.pairwise_cons] at hp
    by_cases ha : (a.event_id == eid && a.student_id == sid) = true
    · simp only [List.find?_cons, ha] at hr
      injection hr with hr
      subst hr
      rw [List.erase_cons_head] at hx
      have hane := hp.1 x hx
      simp only [Bool.and_eq_true, beq_iff_eq] at ha
      by_contra hpx
      rw [Bool.not_eq_false] at hpx
      simp only [Bool.and_eq_true, beq_iff_eq] at hpx
      exact hane ⟨ha.1.trans hpx.1.symm, ha.2.trans hpx.2.symm⟩
    · rw [Bool.not_eq_true] at ha
      simp only [List.find?_cons, ha] at hr
      have har : a ≠ r := by
        intro h
        have hpr := List.find?_some hr
        rw [← h, ha] at hpr
        exact Bool.false_ne_true hpr
      rw [List.erase_cons_tail (by simpa using har)] at hx
      rcases List.mem_cons.mp hx with h | h
      · subst h
        exact ha
      · exact ih hp.2 r hr x h

/-- C5: unregister_event fails with the notRegistered result and leaves the
store unchanged when no row for the (event, student) pair exists; otherwise
it reports ok and deletes exactly that row: events and students are
untouched, no row for the pair remains, and every other registration row
survives. -/
theorem unregister_event_spec (db : DB) (sid eid : Nat)
    (hu : uniquePairs db) :
    (regLookup db eid sid = none →
        unregister_event db sid eid = (.notRegistered, db))
    ∧ ∀ r, regLookup db eid sid = some r →
        unregister_event db sid eid =
          (.ok, { db with registrations := db.registrations.erase r })
        ∧ (unregister_event db sid eid).2.events = db.events
        ∧ (unregister_event db sid eid).2.students = db.students
        ∧ regLookup (unregister_event db sid eid).2 eid sid = none
        ∧ ∀ x ∈ db.registrations, x ≠ r →
            x ∈ (unregister_event db sid eid).2.registrations := by
  refine ⟨?_, ?_⟩
  · intro h
    unfold unregister_event
    rw [h]
  · intro r hr
    have heq : unregister_event db sid eid =
        (.ok, { db with registrations := db.registrations.erase r }) := by
      unfold unregister_event
      rw [hr]
    refine ⟨heq, by rw [heq], by rw [heq], ?_, ?_⟩
    · rw [heq]
      show regLookup { db with registrations := db.registrations.erase r }
        eid sid = none
      unfold regLookup
      rw [List.find?_eq_none]
      intro x hx
      have hfalse := erase_found_no_match eid sid db.registrations hu r hr x hx
      simp [hfalse]
    · intro x hxmem hxne
      rw [heq]
      show x ∈ db.registrations.erase r
      exact (List.mem_erase_of_ne hxne).mpr hxmem

/-- Store for the C5 witness: two registrations for event 1. -/
def dbC5 : DB :=
  ⟨[⟨1, "a", "a@x", "r1", "cs", "h"⟩, ⟨2, "b", "b@x", "r2", "cs", "h"⟩],
   [⟨1, "t", "d", 10, "v", "cs", 5⟩], [⟨1, 1, 1, 0⟩, ⟨2, 1, 2, 3⟩], 2, 3⟩

/-- C5 witness: unregistering student 1 deletes exactly that row and the
other registration survives. -/
theorem unregister_event_spec_witness :
    unregister_event dbC5 1 1 =
      (.ok, { dbC5 with
        registrations := dbC5.registrations.erase ⟨1, 1, 1, 0⟩ })
    ∧ regLookup (unregister_event dbC5 1 1).2 1 1 = none
    ∧ (⟨2, 1, 2, 3⟩ : Registration) ∈ (unregister_event dbC5 1 1).2.registrations :=
  ⟨((unregister_event_spec dbC5 1 1 (by decide)).2 ⟨1, 1, 1, 0⟩ (by decide)).1,
   ((unregister_event_spec dbC5 1 1 (by decide)).2 ⟨1, 1, 1, 0⟩
      (by decide)).2.2.2.1,
   ((unregister_event_spec dbC5 1 1 (by decide)).2 ⟨1, 1, 1, 0⟩
      (by decide)).2.2.2.2 ⟨2, 1, 2, 3⟩ (by decide) (by decide)⟩

/-- C10: unregister_event consults neither the event's date nor its capacity:
whenever a row for the (event, student) pair exists, it succeeds and deletes
the row, even when the event's date is already in the past and the event is
full, so past-event registrations can always be removed. -/
theorem unregister_ignores_date_and_capacity (db : DB) (now : Int)
    (sid eid : Nat) (ev : Event) (r : Registration)
    (hev : eventLookup db eid = some ev)
    (hpast : ev.date < now)
    (hfull : ev.max_participants ≤ (current_participants db ev : Int))
    (hr : regLookup db eid sid = some r) :
    unregister_event db sid eid =
      (.ok, { db with registrations := db.registrations.erase r }) := by
  unfold unregister_event
  rw [hr]

/-- Store for the C10 witness: event 1 is past at time 20 and full, and
student 1 holds a registration for it. -/
def dbC10 : DB :=
  ⟨[⟨1, "a", "a@x", "r1", "cs", "h"⟩],
   [⟨1, "t", "d", 10, "v", "cs", 1⟩], [⟨1, 1, 1, 0⟩], 2, 2⟩

/-- C10 witness: the registration on the past, full event is removed. -/
theorem unregister_ignores_date_and_capacity_witness :
    unregister_event dbC10 1 1 =
      (.ok, { dbC10 with
        registrations := dbC10.registrations.erase ⟨1, 1, 1, 0⟩ }) :=
  unregister_ignores_date_and_capacity dbC10 20 1 1
    ⟨1, "t", "d", 10, "v", "cs", 1⟩ ⟨1, 1, 1, 0⟩
    (by decide) (by decide) (by decide) (by decide)

/-- C8: a successful delete_event removes exactly the Registration rows
referencing the deleted event (the cascade of src/models.py line 40), and
delete_student removes exactly the rows referencing the deleted student (the
cascade of src/models.py line 17): afterwards no Registration references the
deleted record, and every row referencing another record survives. -/
theorem delete_cascades (db : DB) (eid sid : Nat)
    (h : (delete_event db eid).1 = .ok) :
    (∀ r ∈ (delete_event db eid).2.registrations, r.event_id ≠ eid)
    ∧ (∀ r ∈ db.registrations, r.event_id ≠ eid →
        r ∈ (delete_event db eid).2.registrations)
    ∧ (∀ r ∈ (delete_student db sid).registrations, r.student_id ≠ sid)
    ∧ (∀ r ∈ db.registrations, r.student_id ≠ sid →
        r ∈ (delete_student db sid).registrations) := by
  have hreg : (delete_event db eid).2.registrations
      = db.registrations.filter (fun r => !(r.event_id == eid)) := by
    unfold delete_event at h ⊢
    cases hev : eventLookup db eid with
    | none => simp [hev] at h
    | some ev => simp [hev]
  refine ⟨?_, ?_, ?_, ?_⟩
  · intro r hrm
    rw [hreg] at hrm
    simpa using List.of_mem_filter hrm
  · intro r hrm hne
    rw [hreg]
    exact List.mem_filter.mpr ⟨hrm, by simpa using hne⟩
  · intro r hrm
    simpa using List.of_mem_filter hrm
  · intro r hrm hne
    exact List.mem_filter.mpr ⟨hrm, by simpa using hne⟩

/-- Store for the C8 witness: registrations referencing events 1 and 2 and
students 1 and 2. -/
def dbC8 : DB :=
  ⟨[⟨1, "a", "a@x", "r1", "cs", "h"⟩, ⟨2, "b", "b@x", "r2", "cs", "h"⟩],
   [⟨1, "t", "d", 10, "v", "cs", 5⟩, ⟨2, "u", "e", 12, "w", "ee", 5⟩],
   [⟨1, 1, 1, 0⟩, ⟨2, 2, 1, 0⟩, ⟨3, 1, 2, 0⟩], 3, 4⟩

/-- C8 witness: deleting event 1 (and, separately, student 2) removes exactly
the referencing registrations. -/
theorem delete_cascades_witness :
    (∀ r ∈ (delete_event dbC8 1).2.registrations, r.event_id ≠ 1)
    ∧ (∀ r ∈ dbC8.registrations, r.event_id ≠ 1 →
        r ∈ (delete_event dbC8 1).2.registrations)
    ∧ (∀ r ∈ (delete_student dbC8 2).registrations, r.student_id ≠ 2)
    ∧ (∀ r ∈ dbC8.registrations, r.student_id ≠ 2 →
        r ∈ (delete_student dbC8 2).registrations) :=
  delete_cascades dbC8 1 2 (by decide)

/-- Store for the C4 evaluation: event 1 has capacity 2 and two
registrations. -/
def dbC4 : DB :=
  ⟨[⟨1, "a", "a@x", "r1", "cs", "h"⟩, ⟨2, "b", "b@x", "r2", "cs", "h"⟩],
   [⟨1, "t", "d", 10, "v", "cs", 2⟩], [⟨1, 1, 1, 0⟩, ⟨2, 1, 2, 0⟩], 2, 3⟩

/-- Edit form for C4: a complete submission whose participant count parses
to 1, below the event's 2 registrations. -/
def formC4 : EventForm :=
  ⟨"t2", "d2", "2025-01-01T10:00", "v2", "ee", "1", some 11, some 1⟩

/-- C4 as the code runs it: the src/routes.py copy of edit_event accepts a
new max_participants of 1 although event 1 holds 2 registrations, reports
success and commits the mutation, while the src/run_local.py copy of
edit_event rejects the same request without mutating the store. -/
theorem routes_edit_event_capacity_unchecked :
    (Routes.edit_event dbC4 1 formC4).1 = .ok
    ∧ eventLookup (Routes.edit_event dbC4 1 formC4).2 1
        = some ⟨1, "t2", "d2", 11, "v2", "ee", 1⟩
    ∧ (((⟨1, "t2", "d2", 11, "v2", "ee", 1⟩ : Event).max_participants : Int) <
        (current_participants (Routes.edit_event dbC4 1 formC4).2
          ⟨1, "t2", "d2", 11, "v2", "ee", 1⟩ : Int))
    ∧ (RunLocal.edit_event dbC4 1 formC4).1 = .capacityBelowCount
    ∧ (RunLocal.edit_event dbC4 1 formC4).2 = dbC4 := by
  decide

/-- Empty store for the C7 evaluation. -/
def dbC7 : DB := ⟨[], [], [], 1, 1⟩

/-- Add form for C7: a complete submission whose participant count parses
to 0. -/
def formC7 : EventForm :=
  ⟨"t", "d", "2025-01-01T10:00", "v", "cs", "0", some 10, some 0⟩

/-- C7 as the code runs it: the src/routes.py copy of add_event accepts a
max_participants of 0, reports success and stores the event, while the
src/run_local.py copy of add_event rejects the same request without
mutation. -/
theorem routes_add_event_accepts_nonpositive_capacity :
    (Routes.add_event dbC7 formC7).1 = .ok
    ∧ (Routes.add_event dbC7 formC7).2.events = [⟨1, "t", "d", 10, "v", "cs", 0⟩]
    ∧ (RunLocal.add_event dbC7 5 formC7).1 = .capacityBelowOne
    ∧ (RunLocal.add_event dbC7 5 formC7).2 = dbC7 := by
  decide

/-- Session holding both identities, for the C9 counterexample. -/
def sBoth : SessionState := ⟨some 1, some "stu", some 7, some "adm"⟩

/-- C9 counterexample: on a session holding both a student id and an admin
id, student logout removes the admin id and admin logout removes the student
id, refuting the claimed independence of the two slots under logout. -/
theorem logout_clears_other_slot_counterexample :
    sBoth.student_id = some 1 ∧ sBoth.admin_id = some 7
    ∧ (logout sBoth).admin_id = none
    ∧ (admin_logout sBoth).student_id = none := by
  decide

/-- C9 amended: both logout handlers call session.clear(), so after either
one the whole session is empty and neither identity slot holds an id. -/
theorem logout_clears_whole_session (s : SessionState) :
    logout s = ⟨none, none, none, none⟩
    ∧ admin_logout s = ⟨none, none, none, none⟩ :=
  ⟨rfl, rfl⟩

example :
    (register_event ⟨[], [⟨1, "t", "d", 10, "v", "cs", 1⟩],
        [⟨1, 1, 2, 0⟩], 2, 2⟩ 5 1 1).1 = .eventFull := by decide

example :
    (unregister_event ⟨[], [⟨1, "t", "d", 10, "v", "cs", 1⟩],
        [⟨1, 1, 2, 0⟩], 2, 2⟩ 2 1).2.registrations = [] := by decide

end TechNova
